import Mathlib

/-!
Verification of the VOSK transcription server (`server/vosk_server.py`).

The server is a single Flask handler `transcribe` for `POST /transcribe`,
plus a helper `convert_to_wav` that shells out to ffmpeg.  We embed the
handler shallowly: external collaborators (Flask upload saving, `tempfile`,
ffmpeg, the `wave` module, the VOSK `KaldiRecognizer`) are oracles carried
in an `Env`; the handler body is translated statement by statement.  Each
fallible Python operation is represented by the oracle either returning a
value or signalling the exception it would raise; the handler's control
flow (the `try`/`except`/`finally` at lines 61-90 of the source) is
translated into the corresponding case analysis.  Besides the HTTP outcome
we record the handler's side effects (temp files created, ffmpeg
invocations, recognizer sessions constructed, unlink attempts).
-/

namespace VoskServer

/-- Characters removed by Python's `str.strip()` (the ASCII whitespace
subset, which is all that can arise here). -/
def pyIsSpace (c : Char) : Bool :=
  c = ' ' || c = '\t' || c = '\n' || c = '\r' || c = '\x0b' || c = '\x0c'

/-- Python `str.strip()` on a character list: drop leading and trailing
whitespace. -/
def pyStrip (l : List Char) : List Char :=
  ((l.dropWhile pyIsSpace).reverse.dropWhile pyIsSpace).reverse

/-- Python `str.strip()` on a `String`. -/
def pyStripStr (s : String) : String :=
  ⟨pyStrip s.data⟩

/-- Python slicing `s[:2000]` (first 2000 code points), as used on the
decoded ffmpeg stderr at line 46 of the source. -/
def pySlice2000 (s : String) : String :=
  ⟨s.data.take 2000⟩

/-- Index of the last occurrence of `c` in `l`, when present
(Python `str.rfind`). -/
def lastIdxOf (c : Char) (l : List Char) : Option Nat :=
  ((l.enum.filter (fun p => p.2 == c)).map (fun p => p.1)).getLast?

/--`os.path.splitext(p)[1]` (posixpath): the extension is the last dot and
everything after it, provided the dot comes after the last path separator
and at least one non-dot character stands between them; a basename made
only of leading dots has no extension. -/
def pySplitextExt (p : String) : String :=
  let l := p.data
  let sepIdx : Option Nat := lastIdxOf '/' l
  match lastIdxOf '.' l with
  | none => ""
  | some d =>
    let s : Nat := match sepIdx with | none => 0 | some i => i + 1
    if s ≤ d then
      if ((l.drop s).take (d - s)).any (fun c => c != '.') then ⟨l.drop d⟩ else ""
    else ""

/-- Line 55: `os.path.splitext(f.filename)[1] or '.tmp'` — the suffix given
to `NamedTemporaryFile`; an empty extension (falsy) falls back to `.tmp`. -/
def suffixFor (filename : String) : String :=
  let ext := pySplitextExt filename
  if ext = "" then ".tmp" else ext

/-- Python `' '.join(xs)` on the underlying character lists. -/
def joinFrags : List String → List Char
  | [] => []
  | [s] => s.data
  | s :: rest => s.data ++ ' ' :: joinFrags rest

/-- Line 78: `' '.join([r for r in results if r]).strip()`.  The list
comprehension keeps exactly the non-empty fragments (Python truthiness of a
string), whitespace-only fragments included. -/
def assembleText (results : List String) : String :=
  ⟨pyStrip (joinFrags (results.filter (fun r => r ≠ "")))⟩

/-- Modelled from the spec for comparison with `assembleText`: the spec
says fragments are dropped when they are "empty after trimming", then the
rest are joined with single spaces and the result stripped. -/
def specAssemble (results : List String) : String :=
  ⟨pyStrip (joinFrags (results.filter (fun r => pyStripStr r ≠ "")))⟩

/-- Some two adjacent characters of `l` are both the space character. -/
def hasDoubleSpace : List Char → Bool
  | a :: b :: rest => (a == ' ' && b == ' ') || hasDoubleSpace (b :: rest)
  | _ => false

/-- No two adjacent characters of `l` are both the space character: the
"no doubled internal spaces" property of the spec. -/
def NoDS (l : List Char) : Prop :=
  hasDoubleSpace l = false

instance (l : List Char) : Decidable (NoDS l) :=
  inferInstanceAs (Decidable (hasDoubleSpace l = false))

/-- The first character, when there is one, is not whitespace. -/
def headNotSpace : List Char → Bool
  | [] => true
  | c :: _ => !pyIsSpace c

/-- A fragment with no leading or trailing whitespace and no doubled
internal space (the shape every real recognizer text fragment has). -/
def cleanFrag (s : String) : Prop :=
  headNotSpace s.data = true ∧ headNotSpace s.data.reverse = true ∧ NoDS s.data

instance (s : String) : Decidable (cleanFrag s) :=
  inferInstanceAs (Decidable (_ ∧ _ ∧ _))

/-- Result of `subprocess.run(cmd, stdout=PIPE, stderr=PIPE)` at line 44,
together with the bytes ffmpeg leaves at the output path on success.  The
conversion is a deterministic function of the input file's bytes. -/
structure FfmpegResult where
  returncode : Int
  stderr : String
  output : List Nat
deriving DecidableEq

/-- The uploaded file: `request.files['file']` with its declared filename
and payload bytes. -/
structure UploadFile where
  filename : String
  content : List Nat
deriving DecidableEq

/-- The part of the Flask request the handler reads: whether the multipart
body has a `file` field and, if so, the upload. -/
structure Request where
  files : Option UploadFile
deriving DecidableEq

/-- The oracles for one request: randomness of the two temp names and the
behaviour of every fallible external operation the handler performs.
`saveFails` models `f.save` raising (line 56), `mkstempFails` models
`tempfile.mkstemp` raising (line 59) — both happen before the `try` block.
`ffmpeg` is the subprocess's behaviour as a function of the input bytes;
`waveParse` is `wave.open` + framerate + the `readframes(4000)` chunking of
the wav bytes (`.error` = the `wave` module raising); `recInit` is
`KaldiRecognizer(model, rate)` (`some msg` = constructor raising); `engine`
gives, per chunk, `none` when `AcceptWaveform` is false and `some t` when
it is true with `t` the optional `text` field of the parsed `Result()`
JSON, plus the optional `text` field of `FinalResult()` (`.error` = the
engine raising mid-loop).  `unlinkTmpFails`/`unlinkWavFails` model the two
`os.unlink` calls in the `finally` block raising. -/
structure Env where
  tmpRand : String
  wavRand : String
  saveFails : Bool
  mkstempFails : Bool
  ffmpeg : List Nat → FfmpegResult
  waveParse : List Nat → Except String (Nat × List (List Nat))
  recInit : Option String
  engine : Nat → List (List Nat) → Except String (List (Option (Option String)) × Option String)
  unlinkTmpFails : Bool
  unlinkWavFails : Bool

/-- A JSON response body: either `{"text": t}` or `{"error": msg}`. -/
inductive Body where
  | text (t : String)
  | error (msg : String)
deriving DecidableEq

/-- What the handler produces: an HTTP response, or an exception that
escapes the handler uncaught. -/
inductive Outcome where
  | response (status : Nat) (body : Body)
  | escaped
deriving DecidableEq

/-- Observable side effects of one request: the temp files created, every
ffmpeg invocation (argv), the number of recognizer sessions constructed,
the paths whose deletion was attempted, and those whose deletion failed. -/
structure Effects where
  createdTmp : Option String
  createdWav : Option String
  ffmpegCalls : List (List String)
  sessionsCreated : Nat
  unlinkAttempted : List String
  unlinkFailed : List String
deriving DecidableEq

/-- Effects of the fast 400 path: nothing happened. -/
def Effects.empty : Effects :=
  ⟨none, none, [], 0, [], []⟩

/-- Lines 39-43: the ffmpeg argv. -/
def ffmpegCmd (input_path output_path : String) (sample_rate : Nat) : List String :=
  ["ffmpeg", "-y", "-i", input_path, "-ar", toString sample_rate, "-ac", "1",
   "-vn", "-f", "wav", output_path]

/-- Lines 37-46, `convert_to_wav`: run ffmpeg once, blocking; on non-zero
exit raise `RuntimeError('ffmpeg failed: ' + stderr[:2000])`, otherwise
the wav bytes are at the output path.  The second component records the
subprocess invocations made. -/
def convert_to_wav (e : Env) (input_path output_path : String) (content : List Nat)
    (sample_rate : Nat) : Except String (List Nat) × List (List String) :=
  let cmd := ffmpegCmd input_path output_path sample_rate
  let proc := e.ffmpeg content
  if proc.returncode ≠ 0 then
    (.error ("ffmpeg failed: " ++ pySlice2000 proc.stderr), [cmd])
  else
    (.ok proc.output, [cmd])

/-- Lines 68-77: the fragments accumulated by the read loop (one
`r.get('text', '')` per chunk whose `AcceptWaveform` returned true) plus
the final result's `final.get('text', '')`, appended unconditionally. -/
def runResults (outs : List (Option (Option String))) (final : Option String) : List String :=
  outs.filterMap (fun o => o.map (fun t => t.getD "")) ++ [final.getD ""]

/-- Lines 62-81, the body of the `try` block: conversion result in, then
`wave.open`, recognizer construction, the chunk loop and final result,
text assembly — any exception becomes the 500 JSON error of the `except`
clause.  The second component counts recognizer sessions constructed. -/
def tryBody (e : Env) (conv : Except String (List Nat)) : Outcome × Nat :=
  match conv with
  | .error msg => (.response 500 (.error msg), 0)
  | .ok wavBytes =>
    match e.waveParse wavBytes with
    | .error msg => (.response 500 (.error msg), 0)
    | .ok (framerate, chunks) =>
      match e.recInit with
      | some msg => (.response 500 (.error msg), 0)
      | none =>
        match e.engine framerate chunks with
        | .error msg => (.response 500 (.error msg), 1)
        | .ok (outs, final) =>
          (.response 200 (.text (assembleText (runResults outs final))), 1)

/-- Line 55: the name `NamedTemporaryFile` gives the persisted upload. -/
def tmpPathOf (e : Env) (filename : String) : String :=
  "/tmp/tmp" ++ e.tmpRand ++ suffixFor filename

/-- Line 59: the name `tempfile.mkstemp(suffix='.wav')` gives the output. -/
def wavPathOf (e : Env) : String :=
  "/tmp/tmp" ++ e.wavRand ++ ".wav"

/-- Effects when an exception escapes between creating the input temp file
and entering the `try` block: the upload file exists, nothing else ran. -/
def preTryEffects (tmp_path : String) : Effects :=
  ⟨some tmp_path, none, [], 0, [], []⟩

/-- Effects once the `try` block is entered: both temp files exist, the
`finally` block (lines 82-90) attempts `os.unlink` on both paths in order,
swallowing any failure. -/
def tryEffects (e : Env) (tmp_path wav_path : String) (calls : List (List String))
    (sessions : Nat) : Effects :=
  ⟨some tmp_path, some wav_path, calls, sessions, [tmp_path, wav_path],
   (if e.unlinkTmpFails then [tmp_path] else []) ++
     (if e.unlinkWavFails then [wav_path] else [])⟩

/-- Lines 49-90, the `transcribe` handler.  Missing `file` field → 400 and
return before any side effect.  Otherwise `NamedTemporaryFile` creates the
input temp file; if `f.save` or `tempfile.mkstemp` raises, the exception
escapes — those calls precede the `try` block, so the `finally` cleanup
never runs.  Once the `try` block is entered, `convert_to_wav` runs, then
the recognition pipeline (`tryBody`), and the `finally` block attempts both
deletions whatever happened. -/
def transcribe (e : Env) (req : Request) : Outcome × Effects :=
  match req.files with
  | none => (.response 400 (.error "file field is required"), Effects.empty)
  | some f =>
    let tmp_path := tmpPathOf e f.filename
    if e.saveFails then
      (.escaped, preTryEffects tmp_path)
    else if e.mkstempFails then
      (.escaped, preTryEffects tmp_path)
    else
      let wav_path := wavPathOf e
      let conv := convert_to_wav e tmp_path wav_path f.content 16000
      let body := tryBody e conv.1
      (body.1, tryEffects e tmp_path wav_path conv.2 body.2)

/-- A concrete all-success environment used to exercise the theorems. -/
def okEnv : Env :=
  { tmpRand := "abc123", wavRand := "xyz789",
    saveFails := false, mkstempFails := false,
    ffmpeg := fun _ => { returncode := 0, stderr := "", output := [1, 2] },
    waveParse := fun _ => .ok (16000, [[1], [2]]),
    recInit := none,
    engine := fun _ _ => .ok ([some (some "hello"), none, some (some "world")], some "again"),
    unlinkTmpFails := false, unlinkWavFails := false }

/-- A concrete request carrying a `.webm` upload. -/
def okReq : Request :=
  { files := some { filename := "clip.webm", content := [10, 20] } }

/-- A concrete request whose multipart body has no `file` field. -/
def noFileReq : Request :=
  { files := none }

/-- A concrete request whose upload declares the empty filename. -/
def emptyNameReq : Request :=
  { files := some { filename := "", content := [5] } }

/-- A request with the same payload bytes as `okReq` but another name. -/
def otherNameReq : Request :=
  { files := some { filename := "other.ogg", content := [10, 20] } }

/-- `okEnv` but `f.save` raises (e.g. disk full) at line 56. -/
def saveFailEnv : Env :=
  { okEnv with saveFails := true }

/-- `okEnv` but ffmpeg exits non-zero with diagnostic output `boom`. -/
def ffmpegFailEnv : Env :=
  { okEnv with ffmpeg := fun _ => { returncode := 1, stderr := "boom", output := [] } }

/-- `okEnv` but every recognition result has an empty or absent text field
(silence-only audio). -/
def silentEnv : Env :=
  { okEnv with engine := fun _ _ => .ok ([some (some ""), none], none) }

/-- `okEnv` but the `wave` module fails to open the converted file. -/
def waveFailEnv : Env :=
  { okEnv with waveParse := fun _ => .error "file does not start with RIFF id" }

/-- `okEnv` with different random temp-file names. -/
def renamedEnv : Env :=
  { okEnv with tmpRand := "qqq111", wavRand := "rrr222" }

/-- `okEnv` but the engine emits a whitespace-only fragment. -/
def dirtyEnv : Env :=
  { okEnv with
    engine := fun _ _ => .ok ([some (some "a"), some (some " "), some (some "b")], some "") }

theorem convert_to_wav_calls (e : Env) (i o : String) (c : List Nat) (r : Nat) :
    (convert_to_wav e i o c r).2 = [ffmpegCmd i o r] := by
  simp only [convert_to_wav]
  split <;> rfl

theorem convert_to_wav_ok (e : Env) (i o : String) (c : List Nat) (r : Nat)
    (h : (e.ffmpeg c).returncode = 0) :
    (convert_to_wav e i o c r).1 = .ok (e.ffmpeg c).output := by
  simp [convert_to_wav, h]

theorem convert_to_wav_fail (e : Env) (i o : String) (c : List Nat) (r : Nat)
    (h : (e.ffmpeg c).returncode ≠ 0) :
    (convert_to_wav e i o c r).1 =
      .error ("ffmpeg failed: " ++ pySlice2000 (e.ffmpeg c).stderr) := by
  simp [convert_to_wav, h]

theorem transcribe_run (e : Env) (f : UploadFile)
    (hs : e.saveFails = false) (hm : e.mkstempFails = false) :
    transcribe e ⟨some f⟩ =
      ((tryBody e (convert_to_wav e (tmpPathOf e f.filename) (wavPathOf e) f.content 16000).1).1,
       tryEffects e (tmpPathOf e f.filename) (wavPathOf e)
         (convert_to_wav e (tmpPathOf e f.filename) (wavPathOf e) f.content 16000).2
         (tryBody e (convert_to_wav e (tmpPathOf e f.filename) (wavPathOf e) f.content 16000).1).2) := by
  simp [transcribe, hs, hm]

theorem transcribe_createdTmp (e : Env) (f : UploadFile) :
    (transcribe e ⟨some f⟩).2.createdTmp = some (tmpPathOf e f.filename) := by
  cases hs : e.saveFails with
  | true => simp [transcribe, hs, preTryEffects]
  | false =>
    cases hm : e.mkstempFails with
    | true => simp [transcribe, hs, hm, preTryEffects]
    | false => rw [transcribe_run e f hs hm]; rfl

theorem tryBody_status (e : Env) (conv : Except String (List Nat)) :
    (∃ t, (tryBody e conv).1 = .response 200 (.text t)) ∨
    (∃ m, (tryBody e conv).1 = .response 500 (.error m)) := by
  cases conv with
  | error m => exact .inr ⟨m, rfl⟩
  | ok wavBytes =>
    cases hw : e.waveParse wavBytes with
    | error m => exact .inr ⟨m, by simp [tryBody, hw]⟩
    | ok v =>
      obtain ⟨fr, ch⟩ := v
      cases hr : e.recInit with
      | some m => exact .inr ⟨m, by simp [tryBody, hw, hr]⟩
      | none =>
        cases he : e.engine fr ch with
        | error m => exact .inr ⟨m, by simp [tryBody, hw, hr, he]⟩
        | ok p =>
          obtain ⟨outs, fin⟩ := p
          exact .inl ⟨assembleText (runResults outs fin), by simp [tryBody, hw, hr, he]⟩

theorem transcribe_status_cases (e : Env) (f : UploadFile) :
    (transcribe e ⟨some f⟩).1 = .escaped ∨
    (∃ t, (transcribe e ⟨some f⟩).1 = .response 200 (.text t)) ∨
    (∃ m, (transcribe e ⟨some f⟩).1 = .response 500 (.error m)) := by
  cases hs : e.saveFails with
  | true => left; simp [transcribe, hs]
  | false =>
    cases hm : e.mkstempFails with
    | true => left; simp [transcribe, hs, hm]
    | false =>
      right
      rw [transcribe_run e f hs hm]
      exact tryBody_status e _

/-- C3: a request without the `file` field gets `400` with body
`{"error": "file field is required"}` and no downstream work happens: no
temp file is created, no ffmpeg subprocess is launched, no recognition
session is constructed. -/
theorem transcribe_missing_file_400 (e : Env) (req : Request) (hf : req.files = none) :
    (transcribe e req).1 = .response 400 (.error "file field is required") ∧
    (transcribe e req).2.createdTmp = none ∧
    (transcribe e req).2.createdWav = none ∧
    (transcribe e req).2.ffmpegCalls = [] ∧
    (transcribe e req).2.sessionsCreated = 0 := by
  obtain ⟨files⟩ := req
  dsimp only at hf
  subst hf
  exact ⟨rfl, rfl, rfl, rfl, rfl⟩

/-- C3 witness: the theorem applied to a concrete field-less request. -/
theorem transcribe_missing_file_400_witness :
    (transcribe okEnv noFileReq).1 = .response 400 (.error "file field is required") ∧
    (transcribe okEnv noFileReq).2.createdTmp = none ∧
    (transcribe okEnv noFileReq).2.createdWav = none ∧
    (transcribe okEnv noFileReq).2.ffmpegCalls = [] ∧
    (transcribe okEnv noFileReq).2.sessionsCreated = 0 :=
  transcribe_missing_file_400 okEnv noFileReq rfl

/-- C1 (amended): once both temp files have been created and the `try`
block entered (that is, `f.save` and `tempfile.mkstemp` did not raise),
deletion of both the persisted upload and the wav output is attempted on
every exit path of the handler, and unlink failures are swallowed: they
never change the handler's primary outcome.  (Exceptions raised between
creating the upload temp file and entering the `try` block escape before
any cleanup — see the counterexample.) -/
theorem transcribe_cleanup_in_try (e : Env) (req : Request) (f : UploadFile)
    (hf : req.files = some f) (hs : e.saveFails = false) (hm : e.mkstempFails = false) :
    tmpPathOf e f.filename ∈ (transcribe e req).2.unlinkAttempted ∧
    wavPathOf e ∈ (transcribe e req).2.unlinkAttempted ∧
    ∀ b1 b2 : Bool,
      (transcribe { e with unlinkTmpFails := b1, unlinkWavFails := b2 } req).1 =
        (transcribe e req).1 := by
  obtain ⟨files⟩ := req
  dsimp only at hf
  subst hf
  rw [transcribe_run e f hs hm]
  refine ⟨by simp [tryEffects], by simp [tryEffects], ?_⟩
  intro b1 b2
  rw [transcribe_run { e with unlinkTmpFails := b1, unlinkWavFails := b2 } f hs hm]
  rfl

/-- C1 witness: on a concrete successful run, both temp paths are in the
attempted-unlink list, and making both unlinks fail leaves the outcome
unchanged. -/
theorem transcribe_cleanup_in_try_witness :
    tmpPathOf okEnv "clip.webm" ∈ (transcribe okEnv okReq).2.unlinkAttempted ∧
    wavPathOf okEnv ∈ (transcribe okEnv okReq).2.unlinkAttempted ∧
    (transcribe { okEnv with unlinkTmpFails := true, unlinkWavFails := true } okReq).1 =
      (transcribe okEnv okReq).1 := by
  have h := transcribe_cleanup_in_try okEnv okReq ⟨"clip.webm", [10, 20]⟩ rfl rfl rfl
  exact ⟨h.1, h.2.1, h.2.2 true true⟩

/-- C1 counterexample: when `f.save` raises (line 56, before the `try`
block), the upload temp file has been created but its deletion is never
attempted — the claim's "deletion attempted on every exit path, including
when an exception is raised at any point after their creation" fails. -/
theorem transcribe_cleanup_escape_cex :
    (transcribe saveFailEnv okReq).2.createdTmp = some "/tmp/tmpabc123.webm" ∧
    (transcribe saveFailEnv okReq).2.unlinkAttempted = [] := by
  decide

/-- C2 (amended): if `f.save` and `tempfile.mkstemp` did not raise, every
error raised in the rest of the pipeline is caught inside the handler and
turned into a `500` response whose JSON body carries that error's message
in the `error` field: this holds for a transcoding failure, for the `wave`
module failing on the converted file, for the recognizer constructor
raising, and for the engine raising during chunk streaming/finalization;
and in all cases the outcome is an HTTP response — `200` with a `text`
field or `500` with an `error` field — never an escaped exception.
(Errors while persisting the upload or allocating the wav path escape the
handler uncaught — see the counterexample.) -/
theorem transcribe_try_errors_become_500 (e : Env) (req : Request) (f : UploadFile)
    (hf : req.files = some f) (hs : e.saveFails = false) (hm : e.mkstempFails = false) :
    ((e.ffmpeg f.content).returncode ≠ 0 →
      (transcribe e req).1 =
        .response 500 (.error ("ffmpeg failed: " ++ pySlice2000 (e.ffmpeg f.content).stderr))) ∧
    (∀ m, (e.ffmpeg f.content).returncode = 0 →
      e.waveParse (e.ffmpeg f.content).output = .error m →
      (transcribe e req).1 = .response 500 (.error m)) ∧
    (∀ m fr ch, (e.ffmpeg f.content).returncode = 0 →
      e.waveParse (e.ffmpeg f.content).output = .ok (fr, ch) →
      e.recInit = some m →
      (transcribe e req).1 = .response 500 (.error m)) ∧
    (∀ m fr ch, (e.ffmpeg f.content).returncode = 0 →
      e.waveParse (e.ffmpeg f.content).output = .ok (fr, ch) →
      e.recInit = none →
      e.engine fr ch = .error m →
      (transcribe e req).1 = .response 500 (.error m)) ∧
    ((∃ t, (transcribe e req).1 = .response 200 (.text t)) ∨
      (∃ m, (transcribe e req).1 = .response 500 (.error m))) := by
  obtain ⟨files⟩ := req
  dsimp only at hf
  subst hf
  rw [transcribe_run e f hs hm]
  refine ⟨?_, ?_, ?_, ?_, ?_⟩
  · intro hrc
    rw [convert_to_wav_fail e (tmpPathOf e f.filename) (wavPathOf e) f.content 16000 hrc]
    rfl
  · intro m hrc hw
    rw [convert_to_wav_ok _ _ _ _ _ hrc]
    simp [tryBody, hw]
  · intro m fr ch hrc hw hr
    rw [convert_to_wav_ok _ _ _ _ _ hrc]
    simp [tryBody, hw, hr]
  · intro m fr ch hrc hw hr he
    rw [convert_to_wav_ok _ _ _ _ _ hrc]
    simp [tryBody, hw, hr, he]
  · exact tryBody_status e _

/-- C2 witness: in a concrete run where the `wave` module raises on the
converted file, the handler answers `500` carrying that error message. -/
theorem transcribe_try_errors_become_500_witness :
    (transcribe waveFailEnv okReq).1 =
      .response 500 (.error "file does not start with RIFF id") := by
  have h := transcribe_try_errors_become_500 waveFailEnv okReq ⟨"clip.webm", [10, 20]⟩ rfl rfl rfl
  exact h.2.1 "file does not start with RIFF id" (by decide) rfl

/-- C2 counterexample: an error while persisting the upload (`f.save`
raising at line 56, pipeline step 2) is not caught — the exception escapes
the handler instead of becoming a 500 JSON response. -/
theorem transcribe_save_error_escapes_cex :
    (transcribe saveFailEnv okReq).1 = Outcome.escaped := by
  decide

/-- C5: when ffmpeg exits non-zero, the handler responds `500` with an
`error` message equal to `ffmpeg failed: ` followed by the first 2000
characters of the subprocess's stderr; the stderr excerpt in the message
is at most 2000 characters long. -/
theorem convert_error_truncated_500 (e : Env) (req : Request) (f : UploadFile)
    (hf : req.files = some f) (hs : e.saveFails = false) (hm : e.mkstempFails = false)
    (hrc : (e.ffmpeg f.content).returncode ≠ 0) :
    (transcribe e req).1 =
      .response 500 (.error ("ffmpeg failed: " ++ pySlice2000 (e.ffmpeg f.content).stderr)) ∧
    (pySlice2000 (e.ffmpeg f.content).stderr).data.length ≤ 2000 := by
  obtain ⟨files⟩ := req
  dsimp only at hf
  subst hf
  rw [transcribe_run e f hs hm]
  constructor
  · rw [convert_to_wav_fail e (tmpPathOf e f.filename) (wavPathOf e) f.content 16000 hrc]
    rfl
  · simp [pySlice2000]

/-- C5 witness: concrete failing conversion with stderr `boom`. -/
theorem convert_error_truncated_500_witness :
    (transcribe ffmpegFailEnv okReq).1 =
      .response 500 (.error ("ffmpeg failed: " ++ pySlice2000 "boom")) ∧
    (pySlice2000 "boom").data.length ≤ 2000 := by
  have h := convert_error_truncated_500 ffmpegFailEnv okReq ⟨"clip.webm", [10, 20]⟩ rfl rfl rfl
    (by decide)
  exact h

/-- C8: whenever the request reaches the transcoding step (file field
present, upload persisted, wav path allocated), the ffmpeg subprocess is
invoked exactly once, with argv forcing mono (`-ac 1`), the fixed 16000 Hz
sample rate (`-ar 16000`), no video stream (`-vn`) and the wav container
(`-f wav`), reading the input temp path and writing the output wav path.
The embedding calls it synchronously: the handler proceeds only with the
completed result. -/
theorem transcribe_ffmpeg_args_once (e : Env) (req : Request) (f : UploadFile)
    (hf : req.files = some f) (hs : e.saveFails = false) (hm : e.mkstempFails = false) :
    (transcribe e req).2.ffmpegCalls =
      [["ffmpeg", "-y", "-i", tmpPathOf e f.filename, "-ar", "16000", "-ac", "1",
        "-vn", "-f", "wav", wavPathOf e]] := by
  obtain ⟨files⟩ := req
  dsimp only at hf
  subst hf
  rw [transcribe_run e f hs hm]
  show (tryEffects _ _ _ _ _).ffmpegCalls = _
  rw [show ∀ a b c d g, (tryEffects a b c d g).ffmpegCalls = d from fun _ _ _ _ _ => rfl]
  rw [convert_to_wav_calls]
  rfl

/-- C8 witness: the concrete run issues exactly the expected argv. -/
theorem transcribe_ffmpeg_args_once_witness :
    (transcribe okEnv okReq).2.ffmpegCalls =
      [["ffmpeg", "-y", "-i", tmpPathOf okEnv "clip.webm", "-ar", "16000", "-ac", "1",
        "-vn", "-f", "wav", wavPathOf okEnv]] :=
  transcribe_ffmpeg_args_once okEnv okReq ⟨"clip.webm", [10, 20]⟩ rfl rfl rfl

/-- C9: the persisted upload's temp file name ends with the upload's
extension when the declared filename has a non-empty one, and with the
fallback `.tmp` when it has none (extension in the `os.path.splitext`
sense). -/
theorem transcribe_suffix_preserved (e : Env) (req : Request) (f : UploadFile)
    (hf : req.files = some f) :
    (pySplitextExt f.filename ≠ "" →
      ∃ pre, (transcribe e req).2.createdTmp = some (pre ++ pySplitextExt f.filename)) ∧
    (pySplitextExt f.filename = "" →
      ∃ pre, (transcribe e req).2.createdTmp = some (pre ++ ".tmp")) := by
  obtain ⟨files⟩ := req
  dsimp only at hf
  subst hf
  rw [transcribe_createdTmp e f]
  constructor
  · intro hne
    refine ⟨"/tmp/tmp" ++ e.tmpRand, ?_⟩
    simp only [tmpPathOf, suffixFor]
    rw [if_neg hne]
  · intro heq
    refine ⟨"/tmp/tmp" ++ e.tmpRand, ?_⟩
    simp only [tmpPathOf, suffixFor]
    rw [if_pos heq]

/-- C9 witness: a `.webm` upload is persisted under a `.webm`-suffixed
temp name. -/
theorem transcribe_suffix_preserved_witness :
    ∃ pre, (transcribe okEnv okReq).2.createdTmp = some (pre ++ ".webm") := by
  have h := (transcribe_suffix_preserved okEnv okReq ⟨"clip.webm", [10, 20]⟩ rfl).1 (by decide)
  exact h

/-- C10: a request whose `file` field is present but whose declared
filename is empty passes validation: the payload is persisted to a temp
file with the `.tmp` suffix and the handler never answers `400` for it. -/
theorem transcribe_empty_filename_not_400 (e : Env) (req : Request) (f : UploadFile)
    (hf : req.files = some f) (hn : f.filename = "") :
    (∃ pre, (transcribe e req).2.createdTmp = some (pre ++ ".tmp")) ∧
    (∀ b, (transcribe e req).1 ≠ .response 400 b) := by
  obtain ⟨files⟩ := req
  dsimp only at hf
  subst hf
  constructor
  · refine ⟨"/tmp/tmp" ++ e.tmpRand, ?_⟩
    rw [transcribe_createdTmp e f]
    simp only [tmpPathOf, suffixFor, hn]
    rw [if_pos (by decide : pySplitextExt "" = "")]
  · intro b
    rcases transcribe_status_cases e f with h | ⟨t, h⟩ | ⟨m, h⟩ <;> rw [h] <;> simp

/-- C10 witness: concrete empty-filename upload gets a `.tmp` temp file
and no `400`. -/
theorem transcribe_empty_filename_not_400_witness :
    (∃ pre, (transcribe okEnv emptyNameReq).2.createdTmp = some (pre ++ ".tmp")) ∧
    (transcribe okEnv emptyNameReq).1 ≠ .response 400 (.error "file field is required") := by
  have h := transcribe_empty_filename_not_400 okEnv emptyNameReq ⟨"", [5]⟩ rfl rfl
  exact ⟨h.1, h.2 _⟩

theorem not_space_of (c : Char) (h : pyIsSpace c = false) : c ≠ ' ' := by
  intro hc
  subst hc
  simp [pyIsSpace] at h

theorem headNotSpace_iff (l : List Char) :
    headNotSpace l = true ↔ ∀ c ∈ l.head?, pyIsSpace c = false := by
  cases l <;> simp [headNotSpace]

theorem lastNotSpace_iff (l : List Char) :
    headNotSpace l.reverse = true ↔ ∀ c ∈ l.getLast?, pyIsSpace c = false := by
  rw [headNotSpace_iff, List.head?_reverse]

theorem data_ne_nil_of_ne_empty (s : String) (h : s ≠ "") : s.data ≠ [] :=
  fun hd => h (String.ext hd)

theorem headNotSpace_append_left (l₁ l₂ : List Char) (h : l₁ ≠ []) :
    headNotSpace (l₁ ++ l₂) = headNotSpace l₁ := by
  cases l₁ with
  | nil => exact absurd rfl h
  | cons a t => rfl

theorem dropWhile_eq_self_of_head (l : List Char)
    (h : ∀ c ∈ l.head?, pyIsSpace c = false) : l.dropWhile pyIsSpace = l := by
  cases l with
  | nil => rfl
  | cons a t =>
    rw [List.dropWhile_cons, if_neg]
    simp [h a (by simp)]

theorem pyStrip_eq_self (l : List Char)
    (h1 : headNotSpace l = true) (h2 : headNotSpace l.reverse = true) :
    pyStrip l = l := by
  unfold pyStrip
  rw [dropWhile_eq_self_of_head l ((headNotSpace_iff l).1 h1),
    dropWhile_eq_self_of_head l.reverse ((headNotSpace_iff l.reverse).1 h2),
    List.reverse_reverse]

theorem pyStripStr_eq_self (s : String) (h : cleanFrag s) : pyStripStr s = s := by
  unfold pyStripStr
  rw [pyStrip_eq_self s.data h.1 h.2.1]

theorem joinFrags_ne_nil (s : String) (rest : List String) (hs : s ≠ "") :
    joinFrags (s :: rest) ≠ [] := by
  cases rest with
  | nil => simpa [joinFrags] using data_ne_nil_of_ne_empty s hs
  | cons g t => simp [joinFrags]

theorem hasDoubleSpace_append (l₁ l₂ : List Char)
    (h₁ : hasDoubleSpace l₁ = false) (h₂ : hasDoubleSpace l₂ = false)
    (hb : ∀ x ∈ l₁.getLast?, ∀ y ∈ l₂.head?, ¬(x = ' ' ∧ y = ' ')) :
    hasDoubleSpace (l₁ ++ l₂) = false := by
  induction l₁ with
  | nil => simpa using h₂
  | cons a t ih =>
    cases t with
    | nil =>
      cases l₂ with
      | nil => simp [hasDoubleSpace]
      | cons b t₂ =>
        have hab : ¬(a = ' ' ∧ b = ' ') := hb a (by simp) b (by simp)
        have hsp : (a == ' ' && b == ' ') = false := by
          by_cases ha : a = ' '
          · by_cases hb2 : b = ' '
            · exact absurd ⟨ha, hb2⟩ hab
            · simp [hb2]
          · simp [ha]
        show hasDoubleSpace (a :: b :: t₂) = false
        simp only [hasDoubleSpace, Bool.or_eq_false_iff]
        exact ⟨hsp, h₂⟩
    | cons a' t' =>
      have hsplit : (a == ' ' && a' == ' ') = false ∧ hasDoubleSpace (a' :: t') = false := by
        simpa only [hasDoubleSpace, Bool.or_eq_false_iff] using h₁
      have hb' : ∀ x ∈ (a' :: t').getLast?, ∀ y ∈ l₂.head?, ¬(x = ' ' ∧ y = ' ') := by
        intro x hx y hy
        exact hb x (by rw [List.getLast?_cons_cons]; exact hx) y hy
      have ihr := ih hsplit.2 hb'
      show hasDoubleSpace (a :: a' :: (t' ++ l₂)) = false
      simp only [hasDoubleSpace, Bool.or_eq_false_iff]
      exact ⟨hsplit.1, ihr⟩

theorem joinFrags_clean (frags : List String)
    (h : ∀ f ∈ frags, f ≠ "" ∧ cleanFrag f) :
    headNotSpace (joinFrags frags) = true ∧
    headNotSpace (joinFrags frags).reverse = true ∧
    hasDoubleSpace (joinFrags frags) = false := by
  induction frags with
  | nil => exact ⟨rfl, rfl, rfl⟩
  | cons f t ih =>
    cases t with
    | nil =>
      obtain ⟨-, hc⟩ := h f (by simp)
      exact ⟨hc.1, hc.2.1, hc.2.2⟩
    | cons g t' =>
      obtain ⟨hne, hcf⟩ := h f (by simp)
      have hrest : ∀ x ∈ g :: t', x ≠ "" ∧ cleanFrag x := fun x hx => h x (by simp [hx])
      obtain ⟨ihh, ihl, ihd⟩ := ih hrest
      have hgne : g ≠ "" := (hrest g (by simp)).1
      have hJne : joinFrags (g :: t') ≠ [] := joinFrags_ne_nil g t' hgne
      have hfd : f.data ≠ [] := data_ne_nil_of_ne_empty f hne
      obtain ⟨j, J', hJJ⟩ := List.exists_cons_of_ne_nil hJne
      have hjns : pyIsSpace j = false := by
        have := (headNotSpace_iff _).1 ihh
        rw [hJJ] at this
        exact this j (by simp)
      have hlastJ : ∀ c ∈ (joinFrags (g :: t')).getLast?, pyIsSpace c = false :=
        (lastNotSpace_iff _).1 ihl
      refine ⟨?_, ?_, ?_⟩
      · show headNotSpace (f.data ++ ' ' :: joinFrags (g :: t')) = true
        rw [headNotSpace_append_left _ _ hfd]
        exact hcf.1
      · show headNotSpace (f.data ++ ' ' :: joinFrags (g :: t')).reverse = true
        rw [lastNotSpace_iff]
        intro c hcmem
        rw [List.getLast?_append, hJJ, List.getLast?_cons_cons] at hcmem
        obtain ⟨v, hv⟩ := Option.isSome_iff_exists.1 (List.getLast?_isSome.2 (by simp) :
          (j :: J').getLast?.isSome)
        rw [hv, Option.or_some] at hcmem
        have hcv : v = c := by simpa using hcmem
        subst hcv
        apply hlastJ
        rw [hJJ, hv]
        simp
      · show hasDoubleSpace (f.data ++ ' ' :: joinFrags (g :: t')) = false
        apply hasDoubleSpace_append
        · exact hcf.2.2
        · rw [hJJ]
          show hasDoubleSpace (' ' :: j :: J') = false
          simp only [hasDoubleSpace, Bool.or_eq_false_iff]
          constructor
          · have : j ≠ ' ' := not_space_of j hjns
            simp [this]
          · have := ihd
            rw [hJJ] at this
            exact this
        · intro x hx y hy
          have hxs : pyIsSpace x = false := by
            have := (lastNotSpace_iff f.data).1 hcf.2.1
            exact this x hx
          intro hcon
          exact not_space_of x hxs hcon.1

theorem assembleText_clean (results : List String) (h : ∀ s ∈ results, cleanFrag s) :
    assembleText results = specAssemble results ∧
    headNotSpace (assembleText results).data = true ∧
    headNotSpace (assembleText results).data.reverse = true ∧
    NoDS (assembleText results).data := by
  have hfil : ∀ f ∈ results.filter (fun r => r ≠ ""), f ≠ "" ∧ cleanFrag f := by
    intro f hf
    rw [List.mem_filter] at hf
    exact ⟨by simpa using hf.2, h f hf.1⟩
  obtain ⟨hh, hl, hd⟩ := joinFrags_clean _ hfil
  have hstrip : pyStrip (joinFrags (results.filter (fun r => r ≠ ""))) =
      joinFrags (results.filter (fun r => r ≠ "")) := pyStrip_eq_self _ hh hl
  have hdata : (assembleText results).data = joinFrags (results.filter (fun r => r ≠ "")) := by
    unfold assembleText
    dsimp only
    exact hstrip
  refine ⟨?_, ?_, ?_, ?_⟩
  · have hfc : results.filter (fun r => r ≠ "") = results.filter (fun r => pyStripStr r ≠ "") :=
      List.filter_congr (fun r hr => by rw [pyStripStr_eq_self r (h r hr)])
    unfold assembleText specAssemble
    rw [hfc]
  · rw [hdata]; exact hh
  · rw [hdata]; exact hl
  · show hasDoubleSpace (assembleText results).data = false
    rw [hdata]; exact hd

theorem assembleText_all_empty (results : List String) (h : ∀ s ∈ results, s = "") :
    assembleText results = "" := by
  have hfil : results.filter (fun r => r ≠ "") = [] := by
    rw [List.filter_eq_nil_iff]
    intro a ha
    simp [h a ha]
  unfold assembleText
  rw [hfil]
  rfl

theorem convert_to_wav_fst (e : Env) (i o : String) (c : List Nat) (r : Nat) :
    (convert_to_wav e i o c r).1 =
      (if (e.ffmpeg c).returncode ≠ 0 then
        .error ("ffmpeg failed: " ++ pySlice2000 (e.ffmpeg c).stderr)
      else .ok (e.ffmpeg c).output) := by
  simp only [convert_to_wav]
  split <;> rfl

theorem tryBody_congr (e1 e2 : Env) (conv : Except String (List Nat))
    (hwv : e1.waveParse = e2.waveParse) (hri : e1.recInit = e2.recInit)
    (hen : e1.engine = e2.engine) :
    tryBody e1 conv = tryBody e2 conv := by
  unfold tryBody
  rw [hwv, hri, hen]

/-- C4 (amended): on the success path the returned `text` is exactly the
accumulated fragments joined with a single space after dropping the
fragments that are empty (Python truthiness — not "empty after trimming"),
then stripped.  When every fragment is clean (no leading/trailing
whitespace, no doubled internal space — in particular none is
whitespace-only), this coincides with the spec's description
(`specAssemble`) and the result has no leading or trailing whitespace and
no doubled internal spaces.  For whitespace-only fragments the claim as
stated fails: see the counterexample. -/
theorem transcribe_text_assembly (e : Env) (req : Request) (f : UploadFile)
    (hf : req.files = some f) (hs : e.saveFails = false) (hm : e.mkstempFails = false)
    (hrc : (e.ffmpeg f.content).returncode = 0)
    (fr : Nat) (ch : List (List Nat))
    (hw : e.waveParse (e.ffmpeg f.content).output = .ok (fr, ch))
    (hr : e.recInit = none)
    (outs : List (Option (Option String))) (fin : Option String)
    (he : e.engine fr ch = .ok (outs, fin)) :
    (transcribe e req).1 = .response 200 (.text (assembleText (runResults outs fin))) ∧
    ((∀ s ∈ runResults outs fin, cleanFrag s) →
      assembleText (runResults outs fin) = specAssemble (runResults outs fin) ∧
      headNotSpace (assembleText (runResults outs fin)).data = true ∧
      headNotSpace (assembleText (runResults outs fin)).data.reverse = true ∧
      NoDS (assembleText (runResults outs fin)).data) := by
  constructor
  · obtain ⟨files⟩ := req
    dsimp only at hf
    subst hf
    rw [transcribe_run e f hs hm]
    dsimp only
    rw [convert_to_wav_ok _ _ _ _ _ hrc]
    simp [tryBody, hw, hr, he]
  · intro hclean
    exact assembleText_clean _ hclean

/-- C4 witness: a concrete successful run with clean fragments. -/
theorem transcribe_text_assembly_witness :
    (transcribe okEnv okReq).1 =
      .response 200 (.text (assembleText ["hello", "world", "again"])) ∧
    assembleText ["hello", "world", "again"] = specAssemble ["hello", "world", "again"] ∧
    NoDS (assembleText ["hello", "world", "again"]).data := by
  have h := transcribe_text_assembly okEnv okReq ⟨"clip.webm", [10, 20]⟩ rfl rfl rfl rfl
    16000 [[1], [2]] rfl rfl [some (some "hello"), none, some (some "world")] (some "again") rfl
  have h2 := h.2 (by decide)
  exact ⟨h.1, h2.1, h2.2.2.2⟩

/-- C4 counterexample: a whitespace-only fragment is truthy in Python, so
the code keeps it at the join; the returned text then has doubled internal
spaces and differs from the spec's join-after-dropping-trimmed-empties. -/
theorem transcribe_whitespace_fragment_cex :
    (transcribe dirtyEnv okReq).1 = .response 200 (.text "a   b") ∧
    specAssemble ["a", " ", "b", ""] = "a b" ∧
    ("a   b" : String) ≠ "a b" ∧
    ¬ NoDS ("a   b" : String).data := by
  exact ⟨by decide, by decide, by decide, by decide⟩

/-- C6: when every recognition result's text field is empty or absent
(silence-only or empty-duration audio), the handler returns `200` with
`text` equal to the empty string, not an error. -/
theorem transcribe_silence_empty_text (e : Env) (req : Request) (f : UploadFile)
    (hf : req.files = some f) (hs : e.saveFails = false) (hm : e.mkstempFails = false)
    (hrc : (e.ffmpeg f.content).returncode = 0)
    (fr : Nat) (ch : List (List Nat))
    (hw : e.waveParse (e.ffmpeg f.content).output = .ok (fr, ch))
    (hr : e.recInit = none)
    (outs : List (Option (Option String))) (fin : Option String)
    (he : e.engine fr ch = .ok (outs, fin))
    (hempty : ∀ s ∈ runResults outs fin, s = "") :
    (transcribe e req).1 = .response 200 (.text "") := by
  obtain ⟨files⟩ := req
  dsimp only at hf
  subst hf
  rw [transcribe_run e f hs hm]
  dsimp only
  rw [convert_to_wav_ok _ _ _ _ _ hrc]
  simp [tryBody, hw, hr, he, assembleText_all_empty _ hempty]

/-- C6 witness: a concrete run in which the engine only reports empty or
absent text fields yields `200` with the empty transcript. -/
theorem transcribe_silence_empty_text_witness :
    (transcribe silentEnv okReq).1 = .response 200 (.text "") :=
  transcribe_silence_empty_text silentEnv okReq ⟨"clip.webm", [10, 20]⟩ rfl rfl rfl rfl
    16000 [[1], [2]] rfl rfl [some (some ""), none] none rfl (by decide)

/-- C7: with the transcoder and engine behaving as deterministic functions
of their inputs, two requests with byte-identical payloads produce the
same outcome (in particular the same `text`), whatever the temp-file
randomness and declared filenames are. -/
theorem transcribe_deterministic (e1 e2 : Env) (r1 r2 : Request) (f1 f2 : UploadFile)
    (h1 : r1.files = some f1) (h2 : r2.files = some f2)
    (hc : f1.content = f2.content)
    (hff : e1.ffmpeg = e2.ffmpeg) (hwv : e1.waveParse = e2.waveParse)
    (hri : e1.recInit = e2.recInit) (hen : e1.engine = e2.engine)
    (hs1 : e1.saveFails = false) (hs2 : e2.saveFails = false)
    (hm1 : e1.mkstempFails = false) (hm2 : e2.mkstempFails = false) :
    (transcribe e1 r1).1 = (transcribe e2 r2).1 := by
  obtain ⟨files1⟩ := r1
  dsimp only at h1
  subst h1
  obtain ⟨files2⟩ := r2
  dsimp only at h2
  subst h2
  rw [transcribe_run e1 f1 hs1 hm1, transcribe_run e2 f2 hs2 hm2]
  dsimp only
  have hconv :
      (convert_to_wav e1 (tmpPathOf e1 f1.filename) (wavPathOf e1) f1.content 16000).1 =
      (convert_to_wav e2 (tmpPathOf e2 f2.filename) (wavPathOf e2) f2.content 16000).1 := by
    rw [convert_to_wav_fst, convert_to_wav_fst, hff, hc]
  rw [hconv, tryBody_congr e1 e2 _ hwv hri hen]

/-- C7 witness: same payload, different temp names and different declared
filenames — identical outcome. -/
theorem transcribe_deterministic_witness :
    (transcribe okEnv okReq).1 = (transcribe renamedEnv otherNameReq).1 :=
  transcribe_deterministic okEnv renamedEnv okReq otherNameReq
    ⟨"clip.webm", [10, 20]⟩ ⟨"other.ogg", [10, 20]⟩
    rfl rfl rfl rfl rfl rfl rfl rfl rfl rfl rfl

end VoskServer
